import Mathlib

set_option maxHeartbeats 1000000

/-!
Shallow embedding of the CertificateNft contract
(src/smart-contracts/contracts/CertificateNft.sol), a soulbound
credential registry built on OpenZeppelin ERC721 and AccessControl
(OpenZeppelin v5 style, matching the overridden signature of the
internal update hook).

Modelling conventions:
* Addresses are natural numbers; 0 is the zero-address sentinel
  (the "no owner" value of ERC721 and the default of mappings).
* block.timestamp and msg.sender are explicit parameters of each
  operation.  A well-formed on-chain call has msg.sender distinct from
  the zero address and a non-zero timestamp; this environment
  assumption is captured by Op.wf below.
* Solidity mappings are total functions with default values, exactly
  as in the EVM storage model.
* A reverting call is an Except.error; the EVM rolls back every write
  of a reverted call, so the post-state of a failed call is the
  pre-state (resultState below).
* uint256 arithmetic is checked in Solidity 0.8, so the counter
  increment reverts instead of wrapping at 2 ^ 256; the Overflow error
  models that revert.
* ERC721 approval bookkeeping (approve, setApprovalForAll) touches
  only approval storage that no claim mentions and that cannot change
  owners, issuer records, certificate records or roles; it is omitted.
  Receiver hooks of safeMint are treated as accepting (external code).
-/

/-- Caller identities and account addresses; 0 models the zero address. -/
abbrev Address := Nat

/-- The three roles of the contract: DEFAULT_ADMIN_ROLE, ADMIN_ROLE
(keccak of ADMIN_ROLE) and ISSUER_ROLE (keccak of ISSUER_ROLE). -/
inductive Role
  | defaultAdmin
  | admin
  | issuer
deriving DecidableEq

/-- enum IssuerStatus of the source: Active, Suspended, Deactivated. -/
inductive IssuerStatus
  | Active
  | Suspended
  | Deactivated
deriving DecidableEq

/-- struct CertificateData of the source. -/
structure CertificateData where
  recipientName : String
  recipientAddress : Address
  issuerAddress : Address
  issueDate : Nat
  courseTitle : String
deriving DecidableEq

/-- The default value of a CertificateData mapping slot. -/
def CertificateData.default : CertificateData :=
  { recipientName := "", recipientAddress := 0, issuerAddress := 0,
    issueDate := 0, courseTitle := "" }

/-- struct Issuer of the source. -/
structure Issuer where
  name : String
  website : String
  status : IssuerStatus
  registrationDate : Nat
deriving DecidableEq

/-- The default value of an Issuer mapping slot (enum default is the
first member, Active). -/
def Issuer.default : Issuer :=
  { name := "", website := "", status := IssuerStatus.Active,
    registrationDate := 0 }

/-- Emitted events, the audit log of the registry.  RoleGranted,
RoleRevoked and Transfer come from the inherited OpenZeppelin
contracts; the others are declared in CertificateNft. -/
inductive Event
  | RoleGranted (role : Role) (account sender : Address)
  | RoleRevoked (role : Role) (account sender : Address)
  | Transfer (fromAddr toAddr : Address) (tokenId : Nat)
  | IssuerAdded (issuerAddress : Address)
  | IssuerRoleRevoked (issuerAddress : Address)
  | IssuerStatusUpdated (issuerAddress : Address)
      (oldStatus newStatus : IssuerStatus)
  | CertificateIssued (tokenId : Nat) (issuer recipient : Address)
deriving DecidableEq

/-- Revert reasons.  The require strings of the source and the custom
errors of the OpenZeppelin base contracts, under the names the spec
uses: Unauthorized is AccessControlUnauthorizedAccount,
IssuerAlreadyExists is "Certify: Issuer already exist", IssuerNotFound
is "Certify: Issuer does not exist", IssuerDeactivated is "Certify:
Issuer is permanently deactivated", StatusUnchanged is "Certify:
Issuer already has this status", IssuerNotActive is "Certify: Issuer
is not active", CredentialNotFound is "Certify: Certificate does not
exist", TransferForbidden is "Soulbound: This token is
non-transferable.". -/
inductive Err
  | Unauthorized (account : Address) (neededRole : Role)
  | IssuerAlreadyExists
  | IssuerNotFound
  | IssuerDeactivated
  | StatusUnchanged
  | IssuerNotActive
  | CredentialNotFound
  | TransferForbidden
  | InvalidReceiver (receiver : Address)
  | InvalidSender (sender : Address)
  | NonexistentToken (tokenId : Nat)
  | BadConfirmation
  | Overflow
deriving DecidableEq

/-- The contract storage: the AccessControl role table, the issuers
and certificateDetails mappings, the private token-id counter, the
ERC721 owner table, and the emitted-event log. -/
structure State where
  roles : Role → Address → Bool
  issuers : Address → Issuer
  certificateDetails : Nat → CertificateData
  nextTokenId : Nat
  owners : Nat → Address
  events : List Event

/-- hasRole of AccessControl. -/
def hasRole (s : State) (role : Role) (account : Address) : Bool :=
  s.roles role account

/-- getRoleAdmin after the constructor ran: the constructor sets the
admin of ISSUER_ROLE to ADMIN_ROLE, every other role keeps the
default DEFAULT_ADMIN_ROLE; no later call changes it. -/
def getRoleAdmin : Role → Role
  | Role.issuer => Role.admin
  | _ => Role.defaultAdmin

/-- Internal grantRole of AccessControl: grants and emits RoleGranted
when the account does not yet hold the role, otherwise does nothing. -/
def grantRoleInternal (s : State) (role : Role) (account sender : Address) :
    State :=
  if s.roles role account then s
  else
    { s with
      roles := fun r a =>
        if r = role ∧ a = account then true else s.roles r a,
      events := s.events ++ [Event.RoleGranted role account sender] }

/-- Internal revokeRole of AccessControl: revokes and emits
RoleRevoked when the account holds the role, otherwise does nothing. -/
def revokeRoleInternal (s : State) (role : Role) (account sender : Address) :
    State :=
  if s.roles role account then
    { s with
      roles := fun r a =>
        if r = role ∧ a = account then false else s.roles r a,
      events := s.events ++ [Event.RoleRevoked role account sender] }
  else s

/-- Public grantRole of AccessControl: onlyRole(getRoleAdmin(role)),
then the internal grant. -/
def grantRole (s : State) (role : Role) (account sender : Address) :
    Except Err State :=
  if s.roles (getRoleAdmin role) sender then
    Except.ok (grantRoleInternal s role account sender)
  else Except.error (Err.Unauthorized sender (getRoleAdmin role))

/-- Public revokeRole of AccessControl: onlyRole(getRoleAdmin(role)),
then the internal revoke. -/
def revokeRole (s : State) (role : Role) (account sender : Address) :
    Except Err State :=
  if s.roles (getRoleAdmin role) sender then
    Except.ok (revokeRoleInternal s role account sender)
  else Except.error (Err.Unauthorized sender (getRoleAdmin role))

/-- Public renounceRole of AccessControl: the caller removes a role
from itself after confirming its own address. -/
def renounceRole (s : State) (role : Role) (confirmation sender : Address) :
    Except Err State :=
  if confirmation = sender then
    Except.ok (revokeRoleInternal s role sender sender)
  else Except.error Err.BadConfirmation

/-- The internal existence test of the source: an issuer exists iff
its registrationDate is non-zero. -/
def issuerExists (s : State) (issuerAddress : Address) : Bool :=
  (s.issuers issuerAddress).registrationDate != 0

/-- The internal existence test of the source: a certificate exists
iff its issueDate is non-zero. -/
def certificateExists (s : State) (tokenId : Nat) : Bool :=
  (s.certificateDetails tokenId).issueDate != 0

/-- addIssuer of the source: onlyRole(ADMIN_ROLE); require the issuer
does not exist; grant ISSUER_ROLE; write the record with status Active
and registrationDate = block.timestamp; emit IssuerAdded. -/
def addIssuer (s : State) (sender issuerAddress : Address)
    (name website : String) (timestamp : Nat) : Except Err State :=
  if ¬ s.roles Role.admin sender then
    Except.error (Err.Unauthorized sender Role.admin)
  else if issuerExists s issuerAddress then
    Except.error Err.IssuerAlreadyExists
  else
    let s1 := grantRoleInternal s Role.issuer issuerAddress sender
    Except.ok
      { s1 with
        issuers := fun a =>
          if a = issuerAddress then
            { name := name, website := website,
              status := IssuerStatus.Active,
              registrationDate := timestamp }
          else s1.issuers a,
        events := s1.events ++ [Event.IssuerAdded issuerAddress] }

/-- The single storage write of updateIssuerStatus: set the status
field of the record of the given issuer, leaving everything else. -/
def setIssuerStatus (s : State) (issuerAddress : Address)
    (newStatus : IssuerStatus) : State :=
  { s with
    issuers := fun a =>
      if a = issuerAddress then
        { s.issuers a with status := newStatus }
      else s.issuers a }

/-- updateIssuerStatus of the source: onlyRole(ADMIN_ROLE); require
existence, not already Deactivated, and a changed status; write the
new status; when the new status is Deactivated additionally call the
public revokeRole(ISSUER_ROLE, issuerAddress) and emit
IssuerRoleRevoked; finally emit IssuerStatusUpdated carrying the
status read before the write. -/
def updateIssuerStatus (s : State) (sender issuerAddress : Address)
    (newStatus : IssuerStatus) : Except Err State :=
  if ¬ s.roles Role.admin sender then
    Except.error (Err.Unauthorized sender Role.admin)
  else if ¬ issuerExists s issuerAddress then
    Except.error Err.IssuerNotFound
  else if (s.issuers issuerAddress).status = IssuerStatus.Deactivated then
    Except.error Err.IssuerDeactivated
  else if (s.issuers issuerAddress).status = newStatus then
    Except.error Err.StatusUnchanged
  else if newStatus = IssuerStatus.Deactivated then
    match revokeRole (setIssuerStatus s issuerAddress newStatus)
        Role.issuer issuerAddress sender with
    | Except.error e => Except.error e
    | Except.ok s2 =>
        Except.ok
          { s2 with
            events := s2.events ++
              [Event.IssuerRoleRevoked issuerAddress,
               Event.IssuerStatusUpdated issuerAddress
                 (s.issuers issuerAddress).status newStatus] }
  else
    Except.ok
      { setIssuerStatus s issuerAddress newStatus with
        events := (setIssuerStatus s issuerAddress newStatus).events ++
          [Event.IssuerStatusUpdated issuerAddress
            (s.issuers issuerAddress).status newStatus] }

/-- The overridden internal update hook of the source (the soulbound
guard): require the token has no owner yet, then run the base ERC721
update, which records the new owner, emits Transfer, and returns the
previous owner.  When the token has no owner and auth is non-zero the
base update reverts with NonexistentToken (authorization check against
the zero owner). -/
def updateToken (s : State) (toAddr : Address) (tokenId : Nat)
    (auth : Address) : Except Err (Address × State) :=
  if s.owners tokenId != 0 then Except.error Err.TransferForbidden
  else if auth != 0 then Except.error (Err.NonexistentToken tokenId)
  else
    Except.ok (s.owners tokenId,
      { s with
        owners := fun t => if t = tokenId then toAddr else s.owners t,
        events := s.events ++
          [Event.Transfer (s.owners tokenId) toAddr tokenId] })

/-- The base ERC721 mint (reached through safeMint): reverts for the
zero receiver, runs the update hook with auth = 0, and reverts when a
previous owner existed. -/
def mintToken (s : State) (toAddr : Address) (tokenId : Nat) :
    Except Err State :=
  if toAddr = 0 then Except.error (Err.InvalidReceiver 0)
  else
    match updateToken s toAddr tokenId 0 with
    | Except.error e => Except.error e
    | Except.ok (prev, s1) =>
        if prev != 0 then Except.error (Err.InvalidSender 0)
        else Except.ok s1

/-- issueCertificate of the source: onlyRole(ISSUER_ROLE); require the
caller record has status Active; read the counter, increment it
(checked uint256 arithmetic), write the certificate record with
issuerAddress = msg.sender and issueDate = block.timestamp, safeMint
to the recipient, emit CertificateIssued. -/
def issueCertificate (s : State) (sender recipientAddress : Address)
    (recipientName courseTitle : String) (timestamp : Nat) :
    Except Err State :=
  if ¬ s.roles Role.issuer sender then
    Except.error (Err.Unauthorized sender Role.issuer)
  else if (s.issuers sender).status ≠ IssuerStatus.Active then
    Except.error Err.IssuerNotActive
  else if s.nextTokenId + 1 ≥ 2 ^ 256 then
    Except.error Err.Overflow
  else
    match mintToken
        { s with
          nextTokenId := s.nextTokenId + 1,
          certificateDetails := fun t =>
            if t = s.nextTokenId then
              { recipientName := recipientName,
                recipientAddress := recipientAddress,
                issuerAddress := sender,
                issueDate := timestamp,
                courseTitle := courseTitle }
            else s.certificateDetails t }
        recipientAddress s.nextTokenId with
    | Except.error e => Except.error e
    | Except.ok s2 =>
        Except.ok
          { s2 with
            events := s2.events ++
              [Event.CertificateIssued s.nextTokenId sender
                recipientAddress] }

/-- transferFrom of the base ERC721 (safeTransferFrom reaches the same
update): reverts for the zero receiver, runs the update hook with
auth = msg.sender, and checks the previous owner matched fromAddr. -/
def transferFrom (s : State) (sender fromAddr toAddr : Address)
    (tokenId : Nat) : Except Err State :=
  if toAddr = 0 then Except.error (Err.InvalidReceiver 0)
  else
    match updateToken s toAddr tokenId sender with
    | Except.error e => Except.error e
    | Except.ok (prev, s1) =>
        if prev ≠ fromAddr then Except.error (Err.InvalidSender fromAddr)
        else Except.ok s1

/-- getCertificateDetails of the source: require existence, then
return the record. -/
def getCertificateDetails (s : State) (tokenId : Nat) :
    Except Err CertificateData :=
  if certificateExists s tokenId then
    Except.ok (s.certificateDetails tokenId)
  else Except.error Err.CredentialNotFound

/-- The public mapping getter issuers(address): total, returns the
stored record (the default record for a never-written slot). -/
def getIssuer (s : State) (issuerAddress : Address) : Issuer :=
  s.issuers issuerAddress

/-- The storage before the constructor body runs. -/
def emptyState : State :=
  { roles := fun _ _ => false,
    issuers := fun _ => Issuer.default,
    certificateDetails := fun _ => CertificateData.default,
    nextTokenId := 0,
    owners := fun _ => 0,
    events := [] }

/-- The constructor: grants DEFAULT_ADMIN_ROLE and ADMIN_ROLE to the
deployer (and fixes the admin of ISSUER_ROLE to ADMIN_ROLE, which
getRoleAdmin already encodes). -/
def initialState (deployer : Address) : State :=
  grantRoleInternal
    (grantRoleInternal emptyState Role.defaultAdmin deployer deployer)
    Role.admin deployer deployer

/-- One external call to the contract, with its msg.sender and, where
the body reads it, its block.timestamp. -/
inductive Op
  | addIssuer (sender issuerAddress : Address) (name website : String)
      (timestamp : Nat)
  | updateIssuerStatus (sender issuerAddress : Address)
      (newStatus : IssuerStatus)
  | issueCertificate (sender recipientAddress : Address)
      (recipientName courseTitle : String) (timestamp : Nat)
  | grantRole (sender : Address) (role : Role) (account : Address)
  | revokeRole (sender : Address) (role : Role) (account : Address)
  | renounceRole (sender : Address) (role : Role) (confirmation : Address)
  | transferFrom (sender fromAddr toAddr : Address) (tokenId : Nat)

/-- Environment well-formedness of an on-chain call: the transaction
sender is never the zero address and the block timestamp is never
zero. -/
def Op.wf : Op → Bool
  | Op.addIssuer sender _ _ _ t => sender != 0 && t != 0
  | Op.updateIssuerStatus sender _ _ => sender != 0
  | Op.issueCertificate sender _ _ _ t => sender != 0 && t != 0
  | Op.grantRole sender _ _ => sender != 0
  | Op.revokeRole sender _ _ => sender != 0
  | Op.renounceRole sender _ _ => sender != 0
  | Op.transferFrom sender _ _ _ => sender != 0

/-- Dispatch one external call. -/
def applyOp (s : State) : Op → Except Err State
  | Op.addIssuer sender issuerAddress name website t =>
      addIssuer s sender issuerAddress name website t
  | Op.updateIssuerStatus sender issuerAddress newStatus =>
      updateIssuerStatus s sender issuerAddress newStatus
  | Op.issueCertificate sender recipientAddress rn ct t =>
      issueCertificate s sender recipientAddress rn ct t
  | Op.grantRole sender role account => grantRole s role account sender
  | Op.revokeRole sender role account => revokeRole s role account sender
  | Op.renounceRole sender role confirmation =>
      renounceRole s role confirmation sender
  | Op.transferFrom sender fromAddr toAddr tokenId =>
      transferFrom s sender fromAddr toAddr tokenId

/-- The post-state of a call: the new state on success, the unchanged
pre-state on revert (EVM rollback). -/
def resultState (s : State) (op : Op) : State :=
  match applyOp s op with
  | Except.ok s1 => s1
  | Except.error _ => s

/-- Run a sequence of external calls. -/
def run (s : State) (ops : List Op) : State :=
  ops.foldl resultState s

/-- The number of calls of a sequence that are issueCertificate calls
and succeed, each one evaluated in the state its predecessors left. -/
def successfulIssues : State → List Op → Nat
  | _, [] => 0
  | s, op :: rest =>
      let n := successfulIssues (resultState s op) rest
      match op with
      | Op.issueCertificate _ _ _ _ _ =>
          match applyOp s op with
          | Except.ok _ => n + 1
          | Except.error _ => n
      | _ => n

/-- States reachable from deployment by well-formed external calls.
A reverted call leaves the state unchanged, so only successful calls
produce new states. -/
inductive Reachable : State → Prop
  | init (deployer : Address) (h : deployer ≠ 0) :
      Reachable (initialState deployer)
  | step (s : State) (op : Op) (s1 : State) (hr : Reachable s)
      (hwf : op.wf = true) (hok : applyOp s op = Except.ok s1) :
      Reachable s1

/-- Whether a call is an issueCertificate call. -/
def Op.isIssue : Op → Bool
  | Op.issueCertificate _ _ _ _ _ => true
  | _ => false

/-- The credential correspondence invariant: every existing credential
record is owned by its stored recipient, the recipient is a real
address, and the audit log carries the CertificateIssued event whose
issuer field (the msg.sender of the minting call) is the stored issuer
identity. -/
def CredInv (s : State) : Prop :=
  ∀ id, (s.certificateDetails id).issueDate ≠ 0 →
    s.owners id = (s.certificateDetails id).recipientAddress ∧
    (s.certificateDetails id).recipientAddress ≠ 0 ∧
    Event.CertificateIssued id (s.certificateDetails id).issuerAddress
      (s.certificateDetails id).recipientAddress ∈ s.events

/-- Demo deployment: address 1 deploys and is the initial admin. -/
def demo0 : State := initialState 1

/-- Demo: the admin adds issuer 2 at time 5. -/
def demo1 : State := resultState demo0 (Op.addIssuer 1 2 "Uni" "site" 5)

/-- Demo: issuer 2 issues credential 0 to recipient 3 at time 7. -/
def demo2 : State :=
  resultState demo1 (Op.issueCertificate 2 3 "Alice" "Algorithms" 7)

/-- Demo: the admin suspends issuer 2. -/
def demo3 : State :=
  resultState demo2 (Op.updateIssuerStatus 1 2 IssuerStatus.Suspended)

/-- Demo: the admin deactivates issuer 2 (terminal). -/
def demo4 : State :=
  resultState demo3 (Op.updateIssuerStatus 1 2 IssuerStatus.Deactivated)

/-- Demo: the admin re-grants the Issuer role to the deactivated
issuer 2 through the inherited public grantRole. -/
def demo5 : State := resultState demo4 (Op.grantRole 1 Role.issuer 2)

/-- The demo call sequence with one failing issuance at the end. -/
def demoOps : List Op :=
  [Op.addIssuer 1 2 "Uni" "site" 5,
   Op.issueCertificate 2 3 "Alice" "Algorithms" 7,
   Op.updateIssuerStatus 1 2 IssuerStatus.Suspended,
   Op.issueCertificate 2 4 "Bob" "Databases" 9]

example : hasRole (initialState 1) Role.admin 1 = true := rfl

example : hasRole (initialState 1) Role.issuer 1 = false := rfl

example :
    updateIssuerStatus (initialState 1) 1 2 IssuerStatus.Suspended =
      Except.error Err.IssuerNotFound := rfl

/-! ### Projection lemmas for the internal role mutators -/

lemma grantRoleInternal_roles (s : State) (role : Role)
    (account sender : Address) (r : Role) (b : Address) :
    (grantRoleInternal s role account sender).roles r b =
      if r = role ∧ b = account then true else s.roles r b := by
  unfold grantRoleInternal
  split
  · rename_i hhad
    split
    · rename_i hrb
      rw [hrb.1, hrb.2]
      exact hhad.symm ▸ rfl
    · rfl
  · rfl

lemma grantRoleInternal_issuers (s : State) (role : Role)
    (account sender : Address) :
    (grantRoleInternal s role account sender).issuers = s.issuers := by
  unfold grantRoleInternal
  split <;> rfl

lemma grantRoleInternal_certificateDetails (s : State) (role : Role)
    (account sender : Address) :
    (grantRoleInternal s role account sender).certificateDetails =
      s.certificateDetails := by
  unfold grantRoleInternal
  split <;> rfl

lemma grantRoleInternal_nextTokenId (s : State) (role : Role)
    (account sender : Address) :
    (grantRoleInternal s role account sender).nextTokenId =
      s.nextTokenId := by
  unfold grantRoleInternal
  split <;> rfl

lemma grantRoleInternal_owners (s : State) (role : Role)
    (account sender : Address) :
    (grantRoleInternal s role account sender).owners = s.owners := by
  unfold grantRoleInternal
  split <;> rfl

lemma grantRoleInternal_events (s : State) (role : Role)
    (account sender : Address) :
    ∃ suffix, (grantRoleInternal s role account sender).events =
      s.events ++ suffix := by
  unfold grantRoleInternal
  split
  · exact ⟨[], by simp⟩
  · exact ⟨[Event.RoleGranted role account sender], rfl⟩

lemma revokeRoleInternal_roles (s : State) (role : Role)
    (account sender : Address) (r : Role) (b : Address) :
    (revokeRoleInternal s role account sender).roles r b =
      if r = role ∧ b = account then false else s.roles r b := by
  unfold revokeRoleInternal
  split
  · rfl
  · rename_i hnot
    split
    · rename_i hrb
      rw [hrb.1, hrb.2]
      exact (Bool.not_eq_true _).mp hnot
    · rfl

lemma revokeRoleInternal_issuers (s : State) (role : Role)
    (account sender : Address) :
    (revokeRoleInternal s role account sender).issuers = s.issuers := by
  unfold revokeRoleInternal
  split <;> rfl

lemma revokeRoleInternal_certificateDetails (s : State) (role : Role)
    (account sender : Address) :
    (revokeRoleInternal s role account sender).certificateDetails =
      s.certificateDetails := by
  unfold revokeRoleInternal
  split <;> rfl

lemma revokeRoleInternal_nextTokenId (s : State) (role : Role)
    (account sender : Address) :
    (revokeRoleInternal s role account sender).nextTokenId =
      s.nextTokenId := by
  unfold revokeRoleInternal
  split <;> rfl

lemma revokeRoleInternal_owners (s : State) (role : Role)
    (account sender : Address) :
    (revokeRoleInternal s role account sender).owners = s.owners := by
  unfold revokeRoleInternal
  split <;> rfl

lemma revokeRoleInternal_events (s : State) (role : Role)
    (account sender : Address) :
    ∃ suffix, (revokeRoleInternal s role account sender).events =
      s.events ++ suffix := by
  unfold revokeRoleInternal
  split
  · exact ⟨[Event.RoleRevoked role account sender], rfl⟩
  · exact ⟨[], by simp⟩

/-! ### Success characterizations of the external operations -/

lemma addIssuer_ok (s : State) (sender a : Address) (n w : String)
    (t : Nat) (s1 : State)
    (h : addIssuer s sender a n w t = Except.ok s1) :
    s.roles Role.admin sender = true ∧ issuerExists s a = false ∧
    s1 = { grantRoleInternal s Role.issuer a sender with
           issuers := fun b =>
             if b = a then
               { name := n, website := w, status := IssuerStatus.Active,
                 registrationDate := t }
             else (grantRoleInternal s Role.issuer a sender).issuers b,
           events := (grantRoleInternal s Role.issuer a sender).events ++
             [Event.IssuerAdded a] } := by
  unfold addIssuer at h
  split at h
  · exact absurd h (by simp)
  · split at h
    · exact absurd h (by simp)
    · rename_i h1 h2
      refine ⟨by simpa using h1, by simpa using h2, ?_⟩
      injection h with h3
      exact h3.symm

lemma updateIssuerStatus_ok (s : State) (sender a : Address)
    (ns : IssuerStatus) (s1 : State)
    (h : updateIssuerStatus s sender a ns = Except.ok s1) :
    s.roles Role.admin sender = true ∧ issuerExists s a = true ∧
    (s.issuers a).status ≠ IssuerStatus.Deactivated ∧
    (s.issuers a).status ≠ ns ∧
    s1.issuers a = { s.issuers a with status := ns } ∧
    (∀ b, b ≠ a → s1.issuers b = s.issuers b) ∧
    s1.certificateDetails = s.certificateDetails ∧
    s1.nextTokenId = s.nextTokenId ∧
    s1.owners = s.owners ∧
    (∀ r b, ¬(r = Role.issuer ∧ b = a) → s1.roles r b = s.roles r b) ∧
    (ns = IssuerStatus.Deactivated → s1.roles Role.issuer a = false) ∧
    (ns ≠ IssuerStatus.Deactivated → s1.roles = s.roles) ∧
    (∃ suffix, s1.events = s.events ++ suffix ∧
      Event.IssuerStatusUpdated a (s.issuers a).status ns ∈ suffix) := by
  unfold updateIssuerStatus at h
  split at h
  · exact absurd h (by simp)
  split at h
  · exact absurd h (by simp)
  split at h
  · exact absurd h (by simp)
  split at h
  · exact absurd h (by simp)
  rename_i h1 h2 h3 h4
  split at h
  · rename_i hns
    subst hns
    unfold revokeRole at h
    split at h
    · rename_i e heq
      rw [if_pos (show (setIssuerStatus s a
          IssuerStatus.Deactivated).roles (getRoleAdmin Role.issuer)
            sender = true from not_not.mp h1)] at heq
      exact absurd heq (by simp)
    · rename_i s2 heq
      rw [if_pos (show (setIssuerStatus s a
          IssuerStatus.Deactivated).roles (getRoleAdmin Role.issuer)
            sender = true from not_not.mp h1)] at heq
      injection heq with heq2
      injection h with h5
      subst h5
      subst heq2
      refine ⟨not_not.mp h1, by simpa using h2, h3, h4, ?_, ?_, ?_, ?_, ?_,
        ?_, ?_, ?_, ?_⟩
      · simp [revokeRoleInternal_issuers, setIssuerStatus]
      · intro b hb
        simp [revokeRoleInternal_issuers, setIssuerStatus, hb]
      · simp [revokeRoleInternal_certificateDetails, setIssuerStatus]
      · simp [revokeRoleInternal_nextTokenId, setIssuerStatus]
      · simp [revokeRoleInternal_owners, setIssuerStatus]
      · intro r b hrb
        simp [revokeRoleInternal_roles, setIssuerStatus, hrb]
      · intro _
        simp [revokeRoleInternal_roles]
      · intro hcon
        exact absurd rfl hcon
      · obtain ⟨suf, hsuf⟩ := revokeRoleInternal_events
          (setIssuerStatus s a IssuerStatus.Deactivated) Role.issuer a
          sender
        refine ⟨suf ++ [Event.IssuerRoleRevoked a,
          Event.IssuerStatusUpdated a (s.issuers a).status
            IssuerStatus.Deactivated], ?_, by simp⟩
        show (revokeRoleInternal (setIssuerStatus s a
            IssuerStatus.Deactivated) Role.issuer a sender).events ++
            [Event.IssuerRoleRevoked a,
             Event.IssuerStatusUpdated a (s.issuers a).status
               IssuerStatus.Deactivated] =
          s.events ++ (suf ++ [Event.IssuerRoleRevoked a,
             Event.IssuerStatusUpdated a (s.issuers a).status
               IssuerStatus.Deactivated])
        rw [hsuf]
        simp [setIssuerStatus]
  · rename_i hns
    injection h with h5
    subst h5
    refine ⟨not_not.mp h1, by simpa using h2, h3, h4,
      by simp [setIssuerStatus], ?_, rfl, rfl, rfl, fun r b _ => rfl,
      fun hcon => absurd hcon hns, fun _ => rfl, ?_⟩
    · intro b hb
      simp [setIssuerStatus, hb]
    · exact ⟨[Event.IssuerStatusUpdated a (s.issuers a).status ns], rfl,
        by simp⟩

lemma updateToken_ok_of (s : State) (toAddr : Address) (tokenId : Nat)
    (hown : s.owners tokenId = 0) :
    updateToken s toAddr tokenId 0 = Except.ok (s.owners tokenId,
      { s with
        owners := fun t => if t = tokenId then toAddr else s.owners t,
        events := s.events ++
          [Event.Transfer (s.owners tokenId) toAddr tokenId] }) := by
  unfold updateToken
  rw [if_neg (by simp [hown]), if_neg (by simp)]

lemma mintToken_ok_of (s : State) (toAddr : Address) (tokenId : Nat)
    (hto : toAddr ≠ 0) (hown : s.owners tokenId = 0) :
    mintToken s toAddr tokenId = Except.ok
      { s with
        owners := fun t => if t = tokenId then toAddr else s.owners t,
        events := s.events ++
          [Event.Transfer (s.owners tokenId) toAddr tokenId] } := by
  unfold mintToken
  rw [if_neg hto, updateToken_ok_of s toAddr tokenId hown]
  simp [hown]

lemma issueCertificate_ok (s : State) (sender recipient : Address)
    (rn ct : String) (t : Nat) (s1 : State)
    (h : issueCertificate s sender recipient rn ct t = Except.ok s1) :
    s.roles Role.issuer sender = true ∧
    (s.issuers sender).status = IssuerStatus.Active ∧
    s.nextTokenId + 1 < 2 ^ 256 ∧
    recipient ≠ 0 ∧ s.owners s.nextTokenId = 0 ∧
    s1.roles = s.roles ∧ s1.issuers = s.issuers ∧
    s1.nextTokenId = s.nextTokenId + 1 ∧
    s1.certificateDetails = (fun i =>
      if i = s.nextTokenId then
        { recipientName := rn, recipientAddress := recipient,
          issuerAddress := sender, issueDate := t, courseTitle := ct }
      else s.certificateDetails i) ∧
    s1.owners = (fun i =>
      if i = s.nextTokenId then recipient else s.owners i) ∧
    s1.events = s.events ++ [Event.Transfer 0 recipient s.nextTokenId,
      Event.CertificateIssued s.nextTokenId sender recipient] := by
  unfold issueCertificate at h
  split at h
  · exact absurd h (by simp)
  split at h
  · exact absurd h (by simp)
  split at h
  · exact absurd h (by simp)
  rename_i h1 h2 h3
  by_cases hrec : recipient = 0
  · subst hrec
    unfold mintToken at h
    rw [if_pos rfl] at h
    simp at h
  · by_cases hown : s.owners s.nextTokenId = 0
    · have hm := mintToken_ok_of
        { s with
          nextTokenId := s.nextTokenId + 1,
          certificateDetails := fun i =>
            if i = s.nextTokenId then
              { recipientName := rn, recipientAddress := recipient,
                issuerAddress := sender, issueDate := t, courseTitle := ct }
            else s.certificateDetails i }
        recipient s.nextTokenId hrec hown
      rw [hm] at h
      simp only [Except.ok.injEq] at h
      subst h
      refine ⟨not_not.mp h1, by simpa using h2, lt_of_not_ge h3, hrec, hown,
        rfl, rfl, rfl, rfl, rfl, by simp [hown]⟩
    · unfold mintToken at h
      rw [if_neg hrec] at h
      unfold updateToken at h
      rw [if_pos (show _ = true by simpa using hown)] at h
      simp at h

lemma grantRole_ok (s : State) (role : Role) (account sender : Address)
    (s1 : State) (h : grantRole s role account sender = Except.ok s1) :
    s.roles (getRoleAdmin role) sender = true ∧
    s1 = grantRoleInternal s role account sender := by
  unfold grantRole at h
  split at h
  · rename_i hc
    refine ⟨hc, ?_⟩
    injection h with h2
    exact h2.symm
  · exact absurd h (by simp)

lemma revokeRole_ok (s : State) (role : Role) (account sender : Address)
    (s1 : State) (h : revokeRole s role account sender = Except.ok s1) :
    s.roles (getRoleAdmin role) sender = true ∧
    s1 = revokeRoleInternal s role account sender := by
  unfold revokeRole at h
  split at h
  · rename_i hc
    refine ⟨hc, ?_⟩
    injection h with h2
    exact h2.symm
  · exact absurd h (by simp)

lemma renounceRole_ok (s : State) (role : Role)
    (confirmation sender : Address) (s1 : State)
    (h : renounceRole s role confirmation sender = Except.ok s1) :
    s1 = revokeRoleInternal s role sender sender := by
  unfold renounceRole at h
  split at h
  · injection h with h2
    exact h2.symm
  · exact absurd h (by simp)

lemma transferFrom_not_ok (s : State) (sender fromAddr toAddr : Address)
    (tokenId : Nat) (hs : sender ≠ 0) (s1 : State) :
    transferFrom s sender fromAddr toAddr tokenId ≠ Except.ok s1 := by
  intro h
  unfold transferFrom at h
  split at h
  · simp at h
  · unfold updateToken at h
    split at h
    · simp at h
    · rename_i prev s2 heq
      by_cases ho : (s.owners tokenId != 0) = true
      · rw [if_pos ho] at heq
        simp at heq
      · rw [if_neg ho,
          if_pos (show (sender != 0) = true by simpa using hs)] at heq
        simp at heq

lemma transferFrom_ok_fields (s : State) (sender fromAddr toAddr : Address)
    (tokenId : Nat) (s1 : State)
    (h : transferFrom s sender fromAddr toAddr tokenId = Except.ok s1) :
    s1.roles = s.roles ∧ s1.issuers = s.issuers ∧
    s1.certificateDetails = s.certificateDetails ∧
    s1.nextTokenId = s.nextTokenId ∧
    s.owners tokenId = 0 ∧
    s1.owners = (fun t => if t = tokenId then toAddr else s.owners t) ∧
    s1.events = s.events ++ [Event.Transfer 0 toAddr tokenId] := by
  unfold transferFrom at h
  split at h
  · simp at h
  · unfold updateToken at h
    split at h
    · simp at h
    · rename_i prev s2 heq
      split at h
      · simp at h
      · injection h with h5
        subst h5
        by_cases ho : (s.owners tokenId != 0) = true
        · rw [if_pos ho] at heq
          simp at heq
        · have ho0 : s.owners tokenId = 0 := by simpa using ho
          rw [if_neg ho] at heq
          by_cases ha : (sender != 0) = true
          · rw [if_pos ha] at heq
            simp at heq
          · rw [if_neg ha] at heq
            injection heq with heq2
            have hs2 : s2 = { s with
                owners := fun t =>
                  if t = tokenId then toAddr else s.owners t,
                events := s.events ++
                  [Event.Transfer (s.owners tokenId) toAddr tokenId] } :=
              (congrArg Prod.snd heq2).symm
            subst hs2
            exact ⟨rfl, rfl, rfl, rfl, ho0, rfl, by simp [ho0]⟩

/-! ### Reachability of the demo states -/

lemma reachable_demo0 : Reachable demo0 :=
  Reachable.init 1 (by decide)

lemma reachable_demo1 : Reachable demo1 :=
  Reachable.step demo0 (Op.addIssuer 1 2 "Uni" "site" 5) demo1
    reachable_demo0 (by decide) rfl

lemma reachable_demo2 : Reachable demo2 :=
  Reachable.step demo1 (Op.issueCertificate 2 3 "Alice" "Algorithms" 7)
    demo2 reachable_demo1 (by decide) rfl

lemma reachable_demo3 : Reachable demo3 :=
  Reachable.step demo2 (Op.updateIssuerStatus 1 2 IssuerStatus.Suspended)
    demo3 reachable_demo2 (by decide) rfl

lemma reachable_demo4 : Reachable demo4 :=
  Reachable.step demo3 (Op.updateIssuerStatus 1 2 IssuerStatus.Deactivated)
    demo4 reachable_demo3 (by decide) rfl

lemma reachable_demo5 : Reachable demo5 :=
  Reachable.step demo4 (Op.grantRole 1 Role.issuer 2) demo5
    reachable_demo4 (by decide) rfl

/-! ### Reachable-state invariants -/

lemma issuers_default_of_not_exists (s : State) (hr : Reachable s) :
    ∀ a, issuerExists s a = false → s.issuers a = Issuer.default := by
  induction hr with
  | init d hd =>
      intro a _
      rfl
  | step s op s1 hr hwf hok ih =>
      intro a hne
      cases op with
      | addIssuer sender b nm w t =>
          obtain ⟨_, hnex, hs1⟩ := addIssuer_ok s sender b nm w t s1 hok
          subst hs1
          by_cases hab : a = b
          · subst hab
            exfalso
            have ht : t ≠ 0 := by
              simp [Op.wf] at hwf
              exact hwf.2
            simp [issuerExists, ht] at hne
          · have hne2 : issuerExists s a = false := by
              unfold issuerExists at hne ⊢
              simpa [grantRoleInternal_issuers, hab] using hne
            simpa [grantRoleInternal_issuers, hab] using ih a hne2
      | updateIssuerStatus sender b ns =>
          obtain ⟨_, hexb, _, _, hrec, hoth, _, _, _, _, _, _, _⟩ :=
            updateIssuerStatus_ok s sender b ns s1 hok
          by_cases hab : a = b
          · subst hab
            exfalso
            have hreg : (s1.issuers a).registrationDate =
                (s.issuers a).registrationDate := by
              rw [hrec]
            unfold issuerExists at hne hexb
            rw [hreg] at hne
            simp at hne hexb
            exact hexb hne
          · have hslot := hoth a hab
            unfold issuerExists at hne
            rw [hslot] at hne
            rw [hslot]
            exact ih a hne
      | issueCertificate sender recipient rn ct t =>
          obtain ⟨_, _, _, _, _, _, hiss, _, _, _, _⟩ :=
            issueCertificate_ok s sender recipient rn ct t s1 hok
          unfold issuerExists at hne
          rw [hiss] at hne ⊢
          exact ih a hne
      | grantRole sender role account =>
          obtain ⟨_, hs1⟩ := grantRole_ok s role account sender s1 hok
          subst hs1
          unfold issuerExists at hne
          rw [grantRoleInternal_issuers] at hne ⊢
          exact ih a hne
      | revokeRole sender role account =>
          obtain ⟨_, hs1⟩ := revokeRole_ok s role account sender s1 hok
          subst hs1
          unfold issuerExists at hne
          rw [revokeRoleInternal_issuers] at hne ⊢
          exact ih a hne
      | renounceRole sender role confirmation =>
          have hs1 := renounceRole_ok s role confirmation sender s1 hok
          subst hs1
          unfold issuerExists at hne
          rw [revokeRoleInternal_issuers] at hne ⊢
          exact ih a hne
      | transferFrom sender f toA id =>
          obtain ⟨_, hiss, _⟩ := transferFrom_ok_fields s sender f toA id s1 hok
          unfold issuerExists at hne
          rw [hiss] at hne ⊢
          exact ih a hne

/-! ### Claims -/

/-- C1: once a credential identifier carries an owner other than the
no-owner sentinel (which is the case for every minted identifier), any
invocation of the overridden ownership-update guard fails with
TransferForbidden, for every target owner and every authorizing
caller — the guard takes no role into account; and the guard can
succeed only when the prior owner is the no-owner sentinel, so it
permits exactly the single assignment performed at mint time. -/
theorem C1_transfer_guard (s : State) (toAddr : Address) (tokenId : Nat)
    (auth : Address) :
    (s.owners tokenId ≠ 0 →
      updateToken s toAddr tokenId auth =
        Except.error Err.TransferForbidden) ∧
    (∀ prev s1, updateToken s toAddr tokenId auth = Except.ok (prev, s1) →
      s.owners tokenId = 0) := by
  constructor
  · intro hmint
    unfold updateToken
    rw [if_pos (by simpa using hmint)]
  · intro prev s1 h
    by_cases ho : s.owners tokenId = 0
    · exact ho
    · exfalso
      unfold updateToken at h
      rw [if_pos (by simpa using ho)] at h
      simp at h

/-- Witness for C1 at a reachable state: in demo2 credential 0 is owned
by recipient 3, and the guard rejects a reassignment attempt. -/
theorem C1_transfer_guard_witness :
    demo2.owners 0 ≠ 0 ∧
    updateToken demo2 5 0 1 = Except.error Err.TransferForbidden :=
  ⟨by decide, (C1_transfer_guard demo2 5 0 1).1 (by decide)⟩

/-- C4 as frozen is false: at the reachable state demo4 the issuer 2
exists, the caller 1 holds Admin, the current status is Deactivated,
and the self-transition fails with IssuerDeactivated, not with
StatusUnchanged. -/
theorem C4_counterexample :
    hasRole demo4 Role.admin 1 = true ∧
    issuerExists demo4 2 = true ∧
    (demo4.issuers 2).status = IssuerStatus.Deactivated ∧
    updateIssuerStatus demo4 1 2 IssuerStatus.Deactivated =
      Except.error Err.IssuerDeactivated ∧
    Err.IssuerDeactivated ≠ Err.StatusUnchanged :=
  ⟨by decide, by decide, by decide, rfl, by decide⟩

/-- C4 amended: for an Admin caller and an existing record, the
self-transition updateIssuerStatus(identity, currentStatus) always
fails: with StatusUnchanged whenever the current status is not
Deactivated (so for Active and for Suspended), and with
IssuerDeactivated when the current status is Deactivated, because the
terminal-state check runs before the redundancy check. -/
theorem C4_self_transition (s : State) (sender a : Address)
    (hadmin : s.roles Role.admin sender = true)
    (hex : issuerExists s a = true) :
    ((s.issuers a).status ≠ IssuerStatus.Deactivated →
      updateIssuerStatus s sender a (s.issuers a).status =
        Except.error Err.StatusUnchanged) ∧
    ((s.issuers a).status = IssuerStatus.Deactivated →
      updateIssuerStatus s sender a (s.issuers a).status =
        Except.error Err.IssuerDeactivated) := by
  constructor
  · intro hnd
    unfold updateIssuerStatus
    rw [if_neg (by simp [hadmin]), if_neg (by simp [hex]), if_neg hnd,
      if_pos rfl]
  · intro hd
    unfold updateIssuerStatus
    rw [if_neg (by simp [hadmin]), if_neg (by simp [hex]), if_pos hd]

/-- Witness for the amended C4: in demo1 issuer 2 is Active and the
redundant transition to Active fails with StatusUnchanged. -/
theorem C4_self_transition_witness :
    (demo1.issuers 2).status = IssuerStatus.Active ∧
    updateIssuerStatus demo1 1 2 IssuerStatus.Active =
      Except.error Err.StatusUnchanged := by
  have h := (C4_self_transition demo1 1 2 (by decide) (by decide)).1
    (by decide)
  exact ⟨by decide, h⟩

/-- C5: issueCertificate succeeds only when the caller holds the Issuer
role and its issuer record has status Active; a caller that holds the
role but whose record is Suspended fails with IssuerNotActive, so
nothing is minted. -/
theorem C5_active_gate (s : State) (sender recipient : Address)
    (rn ct : String) (t : Nat) :
    (∀ s1, issueCertificate s sender recipient rn ct t = Except.ok s1 →
      s.roles Role.issuer sender = true ∧
      (s.issuers sender).status = IssuerStatus.Active) ∧
    (s.roles Role.issuer sender = true →
      (s.issuers sender).status = IssuerStatus.Suspended →
      issueCertificate s sender recipient rn ct t =
        Except.error Err.IssuerNotActive) := by
  constructor
  · intro s1 h
    obtain ⟨h1, h2, _⟩ := issueCertificate_ok s sender recipient rn ct t s1 h
    exact ⟨h1, h2⟩
  · intro hrole hsusp
    unfold issueCertificate
    rw [if_neg (by simp [hrole]), if_pos (by simp [hsusp])]

/-- Witness for C5: in demo3 issuer 2 still holds the role but is
Suspended, and its issuance attempt fails with IssuerNotActive. -/
theorem C5_active_gate_witness :
    hasRole demo3 Role.issuer 2 = true ∧
    (demo3.issuers 2).status = IssuerStatus.Suspended ∧
    issueCertificate demo3 2 4 "Bob" "Databases" 9 =
      Except.error Err.IssuerNotActive :=
  ⟨by decide, by decide,
    (C5_active_gate demo3 2 4 "Bob" "Databases" 9).2 (by decide) (by decide)⟩

/-- C6: with an Admin caller, addIssuer fails with IssuerAlreadyExists
exactly when a record already exists under the non-default
registration-timestamp rule; when no record exists the call succeeds,
grants the Issuer role to the identity, writes the record with status
Active and registration timestamp equal to the current time, and
appends an IssuerAdded event. -/
theorem C6_addIssuer (s : State) (sender a : Address) (n w : String)
    (t : Nat) (hadmin : s.roles Role.admin sender = true) :
    (addIssuer s sender a n w t = Except.error Err.IssuerAlreadyExists ↔
      issuerExists s a = true) ∧
    (issuerExists s a = false →
      ∃ s1, addIssuer s sender a n w t = Except.ok s1 ∧
        s1.roles Role.issuer a = true ∧
        s1.issuers a = { name := n, website := w,
                         status := IssuerStatus.Active,
                         registrationDate := t } ∧
        ∃ pre, s1.events = s.events ++ pre ++ [Event.IssuerAdded a]) := by
  constructor
  · constructor
    · intro h
      by_cases hex : issuerExists s a = true
      · exact hex
      · exfalso
        unfold addIssuer at h
        rw [if_neg (by simp [hadmin]), if_neg (by simpa using hex)] at h
        simp at h
    · intro hex
      unfold addIssuer
      rw [if_neg (by simp [hadmin]), if_pos (by simpa using hex)]
  · intro hnex
    refine ⟨{ grantRoleInternal s Role.issuer a sender with
        issuers := fun b =>
          if b = a then
            { name := n, website := w, status := IssuerStatus.Active,
              registrationDate := t }
          else (grantRoleInternal s Role.issuer a sender).issuers b,
        events := (grantRoleInternal s Role.issuer a sender).events ++
          [Event.IssuerAdded a] }, ?_, ?_, ?_, ?_⟩
    · unfold addIssuer
      rw [if_neg (by simp [hadmin]), if_neg (by simp [hnex])]
    · show (grantRoleInternal s Role.issuer a sender).roles Role.issuer a =
        true
      rw [grantRoleInternal_roles]
      simp
    · simp
    · obtain ⟨suf, hsuf⟩ := grantRoleInternal_events s Role.issuer a sender
      refine ⟨suf, ?_⟩
      show (grantRoleInternal s Role.issuer a sender).events ++
        [Event.IssuerAdded a] = _
      rw [hsuf]

/-- Witness for C6: the demo deployment adds issuer 2 at time 5. -/
theorem C6_addIssuer_witness :
    hasRole demo0 Role.admin 1 = true ∧
    issuerExists demo0 2 = false ∧
    (addIssuer demo0 1 2 "Uni" "site" 5 =
        Except.error Err.IssuerAlreadyExists ↔
      issuerExists demo0 2 = true) ∧
    (∃ s1, addIssuer demo0 1 2 "Uni" "site" 5 = Except.ok s1 ∧
      s1.roles Role.issuer 2 = true ∧
      s1.issuers 2 = { name := "Uni", website := "site",
                       status := IssuerStatus.Active,
                       registrationDate := 5 } ∧
      ∃ pre, s1.events = demo0.events ++ pre ++ [Event.IssuerAdded 2]) := by
  have h := C6_addIssuer demo0 1 2 "Uni" "site" 5 (by decide)
  exact ⟨by decide, by decide, h.1, h.2 (by decide)⟩

/-- C7: getCredential of an id whose issue timestamp is the default
fails with CredentialNotFound, and getIssuer of an identity with no
record (per the existence rule) in a reachable state returns the
default record rather than failing. -/
theorem C7_existence_semantics (s : State) (tokenId : Nat) (a : Address)
    (hr : Reachable s) :
    ((s.certificateDetails tokenId).issueDate = 0 →
      getCertificateDetails s tokenId =
        Except.error Err.CredentialNotFound) ∧
    (issuerExists s a = false → getIssuer s a = Issuer.default) := by
  constructor
  · intro h0
    unfold getCertificateDetails
    rw [if_neg (by simp [certificateExists, h0])]
  · intro hne
    exact issuers_default_of_not_exists s hr a hne

/-- Witness for C7 at demo1: token 5 was never issued and identity 9
was never added. -/
theorem C7_existence_semantics_witness :
    (demo1.certificateDetails 5).issueDate = 0 ∧
    getCertificateDetails demo1 5 = Except.error Err.CredentialNotFound ∧
    issuerExists demo1 9 = false ∧
    getIssuer demo1 9 = Issuer.default := by
  have h := C7_existence_semantics demo1 5 9 reachable_demo1
  exact ⟨by decide, h.1 (by decide), by decide, h.2 (by decide)⟩

/-- C9: a successful updateIssuerStatus changes only the status field
of the target record: the record keeps its name, website and
registration timestamp, every other issuer record, the credential
table, the identifier counter and the owner table are unchanged, and
role membership changes only in the Deactivated case, where exactly
the Issuer role of the target identity is revoked. -/
theorem C9_update_frame (s : State) (sender a : Address)
    (ns : IssuerStatus) (s1 : State)
    (h : updateIssuerStatus s sender a ns = Except.ok s1) :
    (s1.issuers a).status = ns ∧
    (s1.issuers a).name = (s.issuers a).name ∧
    (s1.issuers a).website = (s.issuers a).website ∧
    (s1.issuers a).registrationDate = (s.issuers a).registrationDate ∧
    (∀ b, b ≠ a → s1.issuers b = s.issuers b) ∧
    s1.certificateDetails = s.certificateDetails ∧
    s1.nextTokenId = s.nextTokenId ∧
    s1.owners = s.owners ∧
    (ns ≠ IssuerStatus.Deactivated → s1.roles = s.roles) ∧
    (ns = IssuerStatus.Deactivated → s1.roles Role.issuer a = false ∧
      ∀ r b, ¬(r = Role.issuer ∧ b = a) → s1.roles r b = s.roles r b) := by
  obtain ⟨_, _, _, _, hrec, hoth, hcd, hnt, how, hfr, hde, hnde, _⟩ :=
    updateIssuerStatus_ok s sender a ns s1 h
  exact ⟨by rw [hrec], by rw [hrec], by rw [hrec], by rw [hrec], hoth, hcd,
    hnt, how, hnde, fun hd => ⟨hde hd, hfr⟩⟩

/-- Witness for C9: the suspension step from demo2 to demo3 keeps the
registration timestamp, the credential table, the counter, the owner
table and the full role table. -/
theorem C9_update_frame_witness :
    (demo3.issuers 2).status = IssuerStatus.Suspended ∧
    (demo3.issuers 2).registrationDate =
      (demo2.issuers 2).registrationDate ∧
    demo3.certificateDetails = demo2.certificateDetails ∧
    demo3.nextTokenId = demo2.nextTokenId ∧
    demo3.owners = demo2.owners ∧
    demo3.roles = demo2.roles := by
  obtain ⟨h1, _, _, h4, _, h6, h7, h8, h9, _⟩ :=
    C9_update_frame demo2 1 2 IssuerStatus.Suspended demo3 rfl
  exact ⟨h1, h4, h6, h7, h8, h9 (by decide)⟩

/-- C8: failure is all-or-nothing: every failing call leaves the state
exactly unchanged (the post-state of a reverted call is the
pre-state); moreover, once the guards of the two multi-write
operations pass, the whole operation succeeds, so the status write
plus role revoke of a deactivation, and the counter increment plus
record write plus mint of an issuance, commit together or not at
all. -/
theorem C8_atomicity (s : State) (op : Op) :
    ((∃ e, applyOp s op = Except.error e) → resultState s op = s) ∧
    (∀ sender a ns, s.roles Role.admin sender = true →
      issuerExists s a = true →
      (s.issuers a).status ≠ IssuerStatus.Deactivated →
      (s.issuers a).status ≠ ns →
      ∃ s1, updateIssuerStatus s sender a ns = Except.ok s1) ∧
    (∀ sender recipient rn ct t, s.roles Role.issuer sender = true →
      (s.issuers sender).status = IssuerStatus.Active →
      s.nextTokenId + 1 < 2 ^ 256 → recipient ≠ 0 →
      s.owners s.nextTokenId = 0 →
      ∃ s1, issueCertificate s sender recipient rn ct t =
        Except.ok s1) := by
  refine ⟨?_, ?_, ?_⟩
  · intro ⟨e, he⟩
    unfold resultState
    rw [he]
  · intro sender a ns hadmin hex hnd hne
    by_cases hns : ns = IssuerStatus.Deactivated
    · subst hns
      exact ⟨_, by
        unfold updateIssuerStatus revokeRole
        rw [if_neg (by simp [hadmin]), if_neg (by simp [hex]), if_neg hnd,
          if_neg hne, if_pos rfl,
          if_pos (show (setIssuerStatus s a
            IssuerStatus.Deactivated).roles (getRoleAdmin Role.issuer)
              sender = true from hadmin)]⟩
    · exact ⟨_, by
        unfold updateIssuerStatus
        rw [if_neg (by simp [hadmin]), if_neg (by simp [hex]), if_neg hnd,
          if_neg hne, if_neg hns]⟩
  · intro sender recipient rn ct t hrole hact hlt hrec hown
    exact ⟨_, by
      unfold issueCertificate
      rw [if_neg (by simp [hrole]), if_neg (by simp [hact]),
        if_neg (not_le_of_lt hlt),
        mintToken_ok_of
          { s with
            nextTokenId := s.nextTokenId + 1,
            certificateDetails := fun i =>
              if i = s.nextTokenId then
                { recipientName := rn, recipientAddress := recipient,
                  issuerAddress := sender, issueDate := t,
                  courseTitle := ct }
              else s.certificateDetails i }
          recipient s.nextTokenId hrec hown]⟩

/-- Witness for C8: a failing update on a nonexistent issuer leaves
demo0 unchanged, and a suspension whose guards pass on demo1 runs to
completion. -/
theorem C8_atomicity_witness :
    resultState demo0 (Op.updateIssuerStatus 1 9 IssuerStatus.Suspended) =
      demo0 ∧
    (∃ s1, updateIssuerStatus demo1 1 2 IssuerStatus.Suspended =
      Except.ok s1) := by
  have h0 := C8_atomicity demo0 (Op.updateIssuerStatus 1 9
    IssuerStatus.Suspended)
  have h1 := C8_atomicity demo1 (Op.updateIssuerStatus 1 2
    IssuerStatus.Suspended)
  exact ⟨h0.1 ⟨Err.IssuerNotFound, rfl⟩,
    h1.2.1 1 2 IssuerStatus.Suspended (by decide) (by decide) (by decide)
      (by decide)⟩

lemma resultState_error (s : State) (op : Op) (e : Err)
    (h : applyOp s op = Except.error e) : resultState s op = s := by
  unfold resultState
  rw [h]

lemma resultState_ok (s : State) (op : Op) (s1 : State)
    (h : applyOp s op = Except.ok s1) : resultState s op = s1 := by
  unfold resultState
  rw [h]

lemma initialState_nextTokenId (d : Address) :
    (initialState d).nextTokenId = 0 := by
  unfold initialState
  rw [grantRoleInternal_nextTokenId, grantRoleInternal_nextTokenId]
  rfl

lemma resultState_counter_nonissue (s : State) (op : Op)
    (hni : Op.isIssue op = false) :
    (resultState s op).nextTokenId = s.nextTokenId := by
  cases hap : applyOp s op with
  | error e => rw [resultState_error s op e hap]
  | ok s1 =>
      rw [resultState_ok s op s1 hap]
      cases op with
      | addIssuer sender b nm w t =>
          obtain ⟨_, _, hs1⟩ := addIssuer_ok s sender b nm w t s1 hap
          subst hs1
          simp [grantRoleInternal_nextTokenId]
      | updateIssuerStatus sender b ns =>
          obtain ⟨_, _, _, _, _, _, _, hnt, _⟩ :=
            updateIssuerStatus_ok s sender b ns s1 hap
          exact hnt
      | issueCertificate sender recipient rn ct t =>
          simp [Op.isIssue] at hni
      | grantRole sender role account =>
          obtain ⟨_, hs1⟩ := grantRole_ok s role account sender s1 hap
          subst hs1
          simp [grantRoleInternal_nextTokenId]
      | revokeRole sender role account =>
          obtain ⟨_, hs1⟩ := revokeRole_ok s role account sender s1 hap
          subst hs1
          simp [revokeRoleInternal_nextTokenId]
      | renounceRole sender role confirmation =>
          have hs1 := renounceRole_ok s role confirmation sender s1 hap
          subst hs1
          simp [revokeRoleInternal_nextTokenId]
      | transferFrom sender f toA id =>
          obtain ⟨_, _, _, hnt, _⟩ :=
            transferFrom_ok_fields s sender f toA id s1 hap
          exact hnt

lemma run_counter (s : State) (ops : List Op) :
    (run s ops).nextTokenId = s.nextTokenId + successfulIssues s ops := by
  induction ops generalizing s with
  | nil => simp [run, successfulIssues]
  | cons op rest ih =>
      have hrun : run s (op :: rest) = run (resultState s op) rest := rfl
      rw [hrun, ih (resultState s op)]
      cases hisi : Op.isIssue op with
      | false =>
          rw [resultState_counter_nonissue s op hisi]
          have hsi : successfulIssues s (op :: rest) =
              successfulIssues (resultState s op) rest := by
            cases op with
            | issueCertificate _ _ _ _ _ => simp [Op.isIssue] at hisi
            | _ => rfl
          rw [hsi]
      | true =>
          cases op with
          | issueCertificate sender recipient rn ct t =>
              cases hap :
                  applyOp s (Op.issueCertificate sender recipient rn ct t) with
              | ok s1 =>
                  obtain ⟨_, _, _, _, _, _, _, hnt, _⟩ :=
                    issueCertificate_ok s sender recipient rn ct t s1 hap
                  rw [resultState_ok _ _ _ hap, hnt]
                  have hsi : successfulIssues s
                      (Op.issueCertificate sender recipient rn ct t ::
                        rest) =
                      successfulIssues (resultState s
                        (Op.issueCertificate sender recipient rn ct t))
                        rest + 1 := by
                    simp [successfulIssues, hap]
                  rw [hsi, resultState_ok _ _ _ hap]
                  omega
              | error e =>
                  have hsi : successfulIssues s
                      (Op.issueCertificate sender recipient rn ct t ::
                        rest) =
                      successfulIssues (resultState s
                        (Op.issueCertificate sender recipient rn ct t))
                        rest := by
                    simp [successfulIssues, hap]
                  rw [hsi, resultState_error _ _ _ hap]
          | addIssuer _ _ _ _ _ => simp [Op.isIssue] at hisi
          | updateIssuerStatus _ _ _ => simp [Op.isIssue] at hisi
          | grantRole _ _ _ => simp [Op.isIssue] at hisi
          | revokeRole _ _ _ => simp [Op.isIssue] at hisi
          | renounceRole _ _ _ => simp [Op.isIssue] at hisi
          | transferFrom _ _ _ _ => simp [Op.isIssue] at hisi

/-- C3: identifiers are assigned sequentially from 0: after any call
sequence from deployment the counter equals the number of successful
issuances in the sequence; a successful issuance writes its record and
its CertificateIssued event at exactly the current counter value and
increments the counter by one; every other call, and every failed
call, leaves the counter unchanged, so identifiers are never reused or
skipped. -/
theorem C3_sequential_ids (deployer : Address) (ops : List Op) :
    ((run (initialState deployer) ops).nextTokenId =
      successfulIssues (initialState deployer) ops) ∧
    (∀ s sender recipient rn ct t s1,
      issueCertificate s sender recipient rn ct t = Except.ok s1 →
      s1.nextTokenId = s.nextTokenId + 1 ∧
      (s1.certificateDetails s.nextTokenId).issueDate = t ∧
      s1.events = s.events ++ [Event.Transfer 0 recipient s.nextTokenId,
        Event.CertificateIssued s.nextTokenId sender recipient]) ∧
    (∀ s op, Op.isIssue op = false →
      (resultState s op).nextTokenId = s.nextTokenId) ∧
    (∀ s op e, applyOp s op = Except.error e → resultState s op = s) := by
  refine ⟨?_, ?_, ?_, ?_⟩
  · rw [run_counter, initialState_nextTokenId]
    simp
  · intro s sender recipient rn ct t s1 h
    obtain ⟨_, _, _, _, _, _, _, hnt, hcd, _, hev⟩ :=
      issueCertificate_ok s sender recipient rn ct t s1 h
    refine ⟨hnt, ?_, hev⟩
    rw [hcd]
    simp
  · exact fun s op hni => resultState_counter_nonissue s op hni
  · exact fun s op e he => resultState_error s op e he

/-- Witness for C3: over the demo call sequence, which contains one
successful and one failed issuance, the final counter is 1, and the
failed suspension-time issuance left the counter unchanged. -/
theorem C3_sequential_ids_witness :
    (run (initialState 1) demoOps).nextTokenId = 1 ∧
    (resultState demo1
      (Op.updateIssuerStatus 1 2 IssuerStatus.Suspended)).nextTokenId =
      demo1.nextTokenId := by
  have h := C3_sequential_ids 1 demoOps
  exact ⟨h.1.trans (by decide), h.2.2.1 demo1 _ (by decide)⟩

lemma deactivated_persists (s : State) (a : Address) (op : Op) (s1 : State)
    (hex : issuerExists s a = true)
    (hd : (s.issuers a).status = IssuerStatus.Deactivated)
    (hok : applyOp s op = Except.ok s1) :
    issuerExists s1 a = true ∧
    (s1.issuers a).status = IssuerStatus.Deactivated := by
  cases op with
  | addIssuer sender b nm w t =>
      obtain ⟨_, hnex, hs1⟩ := addIssuer_ok s sender b nm w t s1 hok
      by_cases hab : a = b
      · subst hab
        rw [hnex] at hex
        simp at hex
      · subst hs1
        constructor
        · unfold issuerExists at hex ⊢
          simpa [grantRoleInternal_issuers, hab] using hex
        · simpa [grantRoleInternal_issuers, hab] using hd
  | updateIssuerStatus sender b ns =>
      obtain ⟨_, hexb, hndb, _, hrec, hoth, _⟩ :=
        updateIssuerStatus_ok s sender b ns s1 hok
      by_cases hab : a = b
      · subst hab
        exact absurd hd hndb
      · have hslot := hoth a hab
        constructor
        · unfold issuerExists at hex ⊢
          rw [hslot]
          exact hex
        · rw [hslot]
          exact hd
  | issueCertificate sender recipient rn ct t =>
      obtain ⟨_, _, _, _, _, _, hiss, _⟩ :=
        issueCertificate_ok s sender recipient rn ct t s1 hok
      constructor
      · unfold issuerExists at hex ⊢
        rw [hiss]
        exact hex
      · rw [hiss]
        exact hd
  | grantRole sender role account =>
      obtain ⟨_, hs1⟩ := grantRole_ok s role account sender s1 hok
      subst hs1
      constructor
      · unfold issuerExists at hex ⊢
        rw [grantRoleInternal_issuers]
        exact hex
      · rw [grantRoleInternal_issuers]
        exact hd
  | revokeRole sender role account =>
      obtain ⟨_, hs1⟩ := revokeRole_ok s role account sender s1 hok
      subst hs1
      constructor
      · unfold issuerExists at hex ⊢
        rw [revokeRoleInternal_issuers]
        exact hex
      · rw [revokeRoleInternal_issuers]
        exact hd
  | renounceRole sender role confirmation =>
      have hs1 := renounceRole_ok s role confirmation sender s1 hok
      subst hs1
      constructor
      · unfold issuerExists at hex ⊢
        rw [revokeRoleInternal_issuers]
        exact hex
      · rw [revokeRoleInternal_issuers]
        exact hd
  | transferFrom sender f toA id =>
      obtain ⟨_, hiss, _⟩ := transferFrom_ok_fields s sender f toA id s1 hok
      constructor
      · unfold issuerExists at hex ⊢
        rw [hiss]
        exact hex
      · rw [hiss]
        exact hd

lemma issuer_role_false_persists (s : State) (a : Address) (op : Op)
    (s1 : State) (hex : issuerExists s a = true)
    (hrole : s.roles Role.issuer a = false)
    (hnog : ∀ sender, op ≠ Op.grantRole sender Role.issuer a)
    (hok : applyOp s op = Except.ok s1) :
    s1.roles Role.issuer a = false := by
  cases op with
  | addIssuer sender b nm w t =>
      obtain ⟨_, hnex, hs1⟩ := addIssuer_ok s sender b nm w t s1 hok
      by_cases hab : a = b
      · subst hab
        rw [hnex] at hex
        simp at hex
      · subst hs1
        show (grantRoleInternal s Role.issuer b sender).roles Role.issuer a =
          false
        rw [grantRoleInternal_roles]
        simp [hab, hrole]
  | updateIssuerStatus sender b ns =>
      obtain ⟨_, _, _, _, _, _, _, _, _, hfr, hde, hnde, _⟩ :=
        updateIssuerStatus_ok s sender b ns s1 hok
      by_cases hab : a = b
      · subst hab
        by_cases hns : ns = IssuerStatus.Deactivated
        · exact hde hns
        · rw [hnde hns]
          exact hrole
      · have hkeep := hfr Role.issuer a (fun hcon => hab hcon.2)
        rw [hkeep]
        exact hrole
  | issueCertificate sender recipient rn ct t =>
      obtain ⟨_, _, _, _, _, hroles, _⟩ :=
        issueCertificate_ok s sender recipient rn ct t s1 hok
      rw [hroles]
      exact hrole
  | grantRole sender role account =>
      obtain ⟨_, hs1⟩ := grantRole_ok s role account sender s1 hok
      subst hs1
      rw [grantRoleInternal_roles]
      by_cases hcase : Role.issuer = role ∧ a = account
      · exfalso
        obtain ⟨hc1, hc2⟩ := hcase
        subst hc2
        rw [← hc1] at hnog
        exact hnog sender rfl
      · rw [if_neg hcase]
        exact hrole
  | revokeRole sender role account =>
      obtain ⟨_, hs1⟩ := revokeRole_ok s role account sender s1 hok
      subst hs1
      rw [revokeRoleInternal_roles]
      split
      · rfl
      · exact hrole
  | renounceRole sender role confirmation =>
      have hs1 := renounceRole_ok s role confirmation sender s1 hok
      subst hs1
      rw [revokeRoleInternal_roles]
      split
      · rfl
      · exact hrole
  | transferFrom sender f toA id =>
      obtain ⟨hroles, _⟩ := transferFrom_ok_fields s sender f toA id s1 hok
      rw [hroles]
      exact hrole

lemma updateIssuerStatus_deactivated_fails (s : State)
    (sender a : Address) (ns : IssuerStatus)
    (hex : issuerExists s a = true)
    (hd : (s.issuers a).status = IssuerStatus.Deactivated) :
    (s.roles Role.admin sender = true →
      updateIssuerStatus s sender a ns =
        Except.error Err.IssuerDeactivated) ∧
    (∀ s1, updateIssuerStatus s sender a ns ≠ Except.ok s1) := by
  constructor
  · intro hadmin
    unfold updateIssuerStatus
    rw [if_neg (by simp [hadmin]), if_neg (by simp [hex]), if_pos hd]
  · intro s1 h
    obtain ⟨_, _, hnd, _⟩ := updateIssuerStatus_ok s sender a ns s1 h
    exact hnd hd

/-- C2 as frozen is false on the code: demo5 is reachable, issuer 2 is
Deactivated there since the demo4 step with its Issuer role revoked,
yet the Admin re-grants the role through the inherited public
grantRole, so hasRole(2, Issuer) is true again afterwards. -/
theorem C2_counterexample :
    Reachable demo5 ∧
    (demo4.issuers 2).status = IssuerStatus.Deactivated ∧
    hasRole demo4 Role.issuer 2 = false ∧
    applyOp demo4 (Op.grantRole 1 Role.issuer 2) = Except.ok demo5 ∧
    hasRole demo5 Role.issuer 2 = true :=
  ⟨reachable_demo5, by decide, by decide, rfl, by decide⟩

/-- C2 amended: once an existing issuer record is Deactivated, every
subsequent updateIssuerStatus call for that identity fails — with
IssuerDeactivated whenever the caller holds Admin, and it never
succeeds for any caller; the deactivating call itself leaves
hasRole(identity, Issuer) false; and the record stays Deactivated
while the role stays false under every successful operation except a
direct grantRole of the Issuer role to that identity, which an Admin
can still perform through the inherited Capability Registry
interface — the sole deviation from the frozen claim. -/
theorem C2_terminal_deactivation (s : State) (a : Address)
    (hex : issuerExists s a = true)
    (hd : (s.issuers a).status = IssuerStatus.Deactivated) :
    (∀ sender ns, s.roles Role.admin sender = true →
      updateIssuerStatus s sender a ns =
        Except.error Err.IssuerDeactivated) ∧
    (∀ sender ns s1, updateIssuerStatus s sender a ns ≠ Except.ok s1) ∧
    (∀ s0 sender,
      updateIssuerStatus s0 sender a IssuerStatus.Deactivated =
        Except.ok s → s.roles Role.issuer a = false) ∧
    (∀ op s1, applyOp s op = Except.ok s1 →
      issuerExists s1 a = true ∧
      (s1.issuers a).status = IssuerStatus.Deactivated ∧
      (s.roles Role.issuer a = false →
        (∀ sender, op ≠ Op.grantRole sender Role.issuer a) →
        s1.roles Role.issuer a = false)) := by
  refine ⟨?_, ?_, ?_, ?_⟩
  · exact fun sender ns hadmin =>
      (updateIssuerStatus_deactivated_fails s sender a ns hex hd).1 hadmin
  · exact fun sender ns s1 =>
      (updateIssuerStatus_deactivated_fails s sender a ns hex hd).2 s1
  · intro s0 sender h
    obtain ⟨_, _, _, _, _, _, _, _, _, _, hde, _⟩ :=
      updateIssuerStatus_ok s0 sender a IssuerStatus.Deactivated s h
    exact hde rfl
  · intro op s1 hok
    obtain ⟨h1, h2⟩ := deactivated_persists s a op s1 hex hd hok
    exact ⟨h1, h2, fun hrole hnog =>
      issuer_role_false_persists s a op s1 hex hrole hnog hok⟩

/-- Witness for the amended C2 at demo4: issuer 2 is Deactivated and
the re-activation attempt of the Admin fails with IssuerDeactivated,
while the Issuer role is gone. -/
theorem C2_terminal_deactivation_witness :
    issuerExists demo4 2 = true ∧
    (demo4.issuers 2).status = IssuerStatus.Deactivated ∧
    updateIssuerStatus demo4 1 2 IssuerStatus.Active =
      Except.error Err.IssuerDeactivated := by
  have h := C2_terminal_deactivation demo4 2 (by decide) (by decide)
  exact ⟨by decide, by decide, h.1 1 IssuerStatus.Active (by decide)⟩

lemma credInv_of_frame (s s1 : State)
    (hcd : s1.certificateDetails = s.certificateDetails)
    (how : s1.owners = s.owners)
    (hev : ∀ e, e ∈ s.events → e ∈ s1.events)
    (hinv : CredInv s) : CredInv s1 := by
  intro id hid
  rw [hcd] at hid ⊢
  rw [how]
  obtain ⟨ho, hr0, hm⟩ := hinv id hid
  exact ⟨ho, hr0, hev _ hm⟩

lemma credInv_step (s : State) (op : Op) (s1 : State)
    (hok : applyOp s op = Except.ok s1) (hinv : CredInv s) :
    CredInv s1 := by
  cases op with
  | addIssuer sender b nm w t =>
      obtain ⟨_, _, hs1⟩ := addIssuer_ok s sender b nm w t s1 hok
      subst hs1
      refine credInv_of_frame s _ (by simp [grantRoleInternal_certificateDetails])
        (by simp [grantRoleInternal_owners]) ?_ hinv
      intro e he
      obtain ⟨suf, hsuf⟩ := grantRoleInternal_events s Role.issuer b sender
      show e ∈ (grantRoleInternal s Role.issuer b sender).events ++ _
      rw [hsuf]
      simp [he]
  | updateIssuerStatus sender b ns =>
      obtain ⟨_, _, _, _, _, _, hcd, _, how, _, _, _, suf, hsuf, _⟩ :=
        updateIssuerStatus_ok s sender b ns s1 hok
      refine credInv_of_frame s s1 hcd how ?_ hinv
      intro e he
      rw [hsuf]
      simp [he]
  | issueCertificate sender recipient rn ct t =>
      obtain ⟨_, _, _, hrec, hown, hroles, hiss, hnt, hcdf, hownf, hev⟩ :=
        issueCertificate_ok s sender recipient rn ct t s1 hok
      intro id hid
      by_cases hidn : id = s.nextTokenId
      · subst hidn
        refine ⟨?_, ?_, ?_⟩
        · rw [hownf, hcdf]
          simp
        · rw [hcdf]
          simpa using hrec
        · rw [hcdf, hev]
          simp
      · rw [hcdf] at hid
        simp only [if_neg hidn] at hid
        obtain ⟨ho, hr0, hm⟩ := hinv id hid
        refine ⟨?_, ?_, ?_⟩
        · rw [hownf, hcdf]
          simp only [if_neg hidn]
          exact ho
        · rw [hcdf]
          simp only [if_neg hidn]
          exact hr0
        · rw [hcdf, hev]
          simp only [if_neg hidn]
          simp [hm]
  | grantRole sender role account =>
      obtain ⟨_, hs1⟩ := grantRole_ok s role account sender s1 hok
      subst hs1
      refine credInv_of_frame s _ (grantRoleInternal_certificateDetails s
        role account sender) (grantRoleInternal_owners s role account
          sender) ?_ hinv
      intro e he
      obtain ⟨suf, hsuf⟩ := grantRoleInternal_events s role account sender
      rw [hsuf]
      simp [he]
  | revokeRole sender role account =>
      obtain ⟨_, hs1⟩ := revokeRole_ok s role account sender s1 hok
      subst hs1
      refine credInv_of_frame s _ (revokeRoleInternal_certificateDetails s
        role account sender) (revokeRoleInternal_owners s role account
          sender) ?_ hinv
      intro e he
      obtain ⟨suf, hsuf⟩ := revokeRoleInternal_events s role account sender
      rw [hsuf]
      simp [he]
  | renounceRole sender role confirmation =>
      have hs1 := renounceRole_ok s role confirmation sender s1 hok
      subst hs1
      refine credInv_of_frame s _ (revokeRoleInternal_certificateDetails s
        role sender sender) (revokeRoleInternal_owners s role sender
          sender) ?_ hinv
      intro e he
      obtain ⟨suf, hsuf⟩ := revokeRoleInternal_events s role sender sender
      rw [hsuf]
      simp [he]
  | transferFrom sender f toA tid =>
      obtain ⟨hroles, hiss, hcd, hnt, hown0, hownf, hev⟩ :=
        transferFrom_ok_fields s sender f toA tid s1 hok
      intro id hid
      rw [hcd] at hid
      obtain ⟨ho, hr0, hm⟩ := hinv id hid
      have hne : id ≠ tid := by
        intro hcon
        apply hr0
        rw [← ho, hcon]
        exact hown0
      refine ⟨?_, ?_, ?_⟩
      · rw [hownf, hcd]
        simp only [if_neg hne]
        exact ho
      · rw [hcd]
        exact hr0
      · rw [hcd, hev]
        simp [hm]

lemma credInv_reachable (s : State) (hr : Reachable s) : CredInv s := by
  induction hr with
  | init d hd =>
      intro id hid
      exact absurd rfl hid
  | step s op s1 hr hwf hok ih =>
      exact credInv_step s op s1 hok ih

/-- C10: in every reachable state, every existing credential record
(non-default issue timestamp) is owned, in the token owner table, by
exactly the recipient identity stored in the record, the recipient is
a real address, and the audit log carries the CertificateIssued event
whose issuer field — the msg.sender of the minting call — equals the
stored issuer identity; since this holds in every reachable state, no
operation can break the correspondence. -/
theorem C10_owner_correspondence (s : State) (hr : Reachable s)
    (id : Nat) (hex : (s.certificateDetails id).issueDate ≠ 0) :
    s.owners id = (s.certificateDetails id).recipientAddress ∧
    (s.certificateDetails id).recipientAddress ≠ 0 ∧
    Event.CertificateIssued id (s.certificateDetails id).issuerAddress
      (s.certificateDetails id).recipientAddress ∈ s.events :=
  credInv_reachable s hr id hex

/-- Witness for C10 at the reachable state demo5: credential 0 exists
and is owned by its stored recipient 3, minted by issuer 2. -/
theorem C10_owner_correspondence_witness :
    (demo5.certificateDetails 0).issueDate ≠ 0 ∧
    demo5.owners 0 = (demo5.certificateDetails 0).recipientAddress ∧
    (demo5.certificateDetails 0).issuerAddress = 2 ∧
    demo5.owners 0 = 3 := by
  have h := C10_owner_correspondence demo5 reachable_demo5 0 (by decide)
  exact ⟨by decide, h.1, by decide, by decide⟩
